import Mathlib

/-!
Verification of the openedx-events-sender specification.

The repository's core modules (`receivers.py`, `utils.py`, `tasks.py`) are not
present under `src/`; only their tests (`src/tests/test_receivers.py`) and the
Django app glue (`src/openedx_events_sender/apps.py`) are.  The flattener, the
field-projection mapper, the signal receiver and the dispatch task are
therefore modelled from the specification (`spec.md`, sections 4.1-4.4), and
checked against the concrete expectations recorded in the test module
(`EventTestData.event_data`, `EventTestData.parsed_data`, and the
`test_send_*` assertions).
-/

/-- Primitive values appearing in a flattened record: integers, strings,
booleans and null (spec section 2: "strings, numbers, booleans, null"). -/
inductive Value where
  | int (n : Int)
  | str (s : String)
  | bool (b : Bool)
  | null
deriving DecidableEq, Repr

/-- A value inside a structured event payload (spec section 3): a primitive,
a datetime, an identifier/key object with a canonical string form (such as a
CourseKey), or a nested record of named fields. -/
inductive EventValue where
  | prim (v : Value)
  | datetime (year month day hour minute second : Nat)
  | courseKey (s : String)
  | record (fields : List (String × EventValue))
deriving Repr

/-- Zero-pad a natural number to two digits, as `%m`, `%d`, `%H`, `%M`, `%S`
of `strftime` do. -/
def pad2 (n : Nat) : String :=
  if n < 10 then "0" ++ toString n else toString n

/-- Zero-pad a natural number to four digits, as `%Y` of `strftime` does. -/
def pad4 (n : Nat) : String :=
  if n < 10 then "000" ++ toString n
  else if n < 100 then "00" ++ toString n
  else if n < 1000 then "0" ++ toString n
  else toString n

/-- Modelled from the spec: datetime serialization with the fixed format
`"%Y-%m-%d %H:%M:%S"` (spec section 4.1; the formatting code lives in the
missing `utils.py`). -/
def formatDatetime (year month day hour minute second : Nat) : String :=
  pad4 year ++ "-" ++ pad2 month ++ "-" ++ pad2 day ++ " " ++
    pad2 hour ++ ":" ++ pad2 minute ++ ":" ++ pad2 second

mutual

/-- Modelled from the spec: flattening of one named field of a record
(spec section 4.1; the flattening code lives in the missing `utils.py`).
A nested record contributes its own flattened mapping with every child key
prefixed by `<parent_field_name>_`; a datetime becomes its `"%Y-%m-%d
%H:%M:%S"` string; a key object becomes its canonical string; a primitive
(including null) passes through unchanged. -/
def flattenValue (key : String) (v : EventValue) : List (String × Value) :=
  match v with
  | .prim p => [(key, p)]
  | .datetime y mo d h mi s => [(key, .str (formatDatetime y mo d h mi s))]
  | .courseKey s => [(key, .str s)]
  | .record fields =>
      (flattenFields fields).map (fun kv => (key ++ "_" ++ kv.1, kv.2))

/-- Modelled from the spec: `flatten(record)` over a whole record, field by
field in declaration order (spec section 4.1; lives in the missing
`utils.py`). -/
def flattenFields (fields : List (String × EventValue)) : List (String × Value) :=
  match fields with
  | [] => []
  | (k, v) :: rest => flattenValue k v ++ flattenFields rest

end

/-- Lookup of a key in a flattened record, as Python's `flattened[source_key]`
guarded by `source_key in flattened`. -/
def lookupV (flattened : List (String × Value)) (k : String) : Option Value :=
  match flattened with
  | [] => Option.none
  | (k2, v) :: rest => if k2 = k then some v else lookupV rest k

/-- Modelled from the spec: the non-trivial branch of the mapper (spec
section 4.2; lives in the missing `utils.py`): for each `(source_key,
output_key)` pair of the field mapping, in order, include `output_key:
flattened[source_key]` when `source_key` exists in `flattened`, and skip the
pair silently otherwise. -/
def projectPairs (flattened : List (String × Value)) :
    List (String × String) → List (String × Value)
  | [] => []
  | (src, out) :: rest =>
      match lookupV flattened src with
      | some v => (out, v) :: projectPairs flattened rest
      | Option.none => projectPairs flattened rest

/-- Modelled from the spec: `project(flattened, field_mapping)` (spec section
4.2; lives in the missing `utils.py`).  `None` field mapping is pass-through;
otherwise the mapping (empty included) drives the projection. -/
def project (flattened : List (String × Value)) :
    Option (List (String × String)) → List (String × Value)
  | Option.none => flattened
  | some m => projectPairs flattened m

/-- Modelled from the spec: `prepare_data` of the missing `receivers.py` /
`utils.py` — flatten the event payload, then project it through the
configured field mapping (spec section 4.3). -/
def prepare_data (fields : List (String × EventValue))
    (fieldMapping : Option (List (String × String))) : List (String × Value) :=
  project (flattenFields fields) fieldMapping

/-- Per-event-kind configuration (spec section 6): optional target URL,
optional header mapping, optional field mapping. -/
structure EventConfig where
  url : Option String
  headers : Option (List (String × String))
  fieldMapping : Option (List (String × String))
deriving DecidableEq, Repr

/-- The argument triple (plus the fixed timeout) handed to the dispatcher:
`requests.post(url, json=data, headers=headers, timeout=30)` as asserted by
the tests in `src/tests/test_receivers.py`. -/
structure DispatchTask where
  url : String
  body : List (String × Value)
  headers : List (String × String)
  timeout : Nat
deriving DecidableEq, Repr

/-- Observable outcome of one receiver invocation: the dispatch task it
enqueued for background delivery, if any, and the error messages it logged.
The receiver itself always returns normally; this structure is its return
value. -/
structure ReceiverResult where
  enqueued : Option DispatchTask
  loggedErrors : List String
deriving DecidableEq, Repr

/-- Modelled from the spec: the receiver body of the missing `receivers.py`
(spec section 4.3).  If no URL is configured it does nothing; otherwise it
takes the result of the data-preparation pipeline (which may have raised,
hence the `Except`), enqueues a dispatch task with the configured headers
defaulted to the empty mapping and the fixed timeout 30 on success, and
catches and logs the exception on failure.  It never re-raises: its return
type is `ReceiverResult`, not an `Except`. -/
def handleEvent (cfg : EventConfig)
    (prepareResult : Except String (List (String × Value))) : ReceiverResult :=
  match cfg.url with
  | Option.none => { enqueued := Option.none, loggedErrors := [] }
  | some u =>
      match prepareResult with
      | .error e => { enqueued := Option.none, loggedErrors := [e] }
      | .ok data =>
          { enqueued := some { url := u, body := data,
                               headers := cfg.headers.getD [], timeout := 30 },
            loggedErrors := [] }

/-- Modelled from the spec: `send_enrollment_data` of the missing
`receivers.py` on the happy path — look up the configuration, prepare the
data, and hand the task to the dispatcher (spec section 4.3). -/
def send_enrollment_data (cfg : EventConfig)
    (fields : List (String × EventValue)) : ReceiverResult :=
  handleEvent cfg (.ok (prepare_data fields cfg.fieldMapping))

/-- Modelled from the spec: execution of the background dispatch task of the
missing `tasks.py` (spec sections 4.4 and 7).  `http` is the environment's
HTTP layer; a failure of the single POST becomes an entry in the task
system's own failure log, the task's only output channel. -/
def runTask (http : DispatchTask → Except String Unit) (t : DispatchTask) :
    List String :=
  match http t with
  | .ok _ => []
  | .error e => [e]

/-- Modelled from the spec: the whole pipeline for one event — the receiver
runs synchronously and returns its result, then the background task system
runs whatever task was enqueued, producing the task-failure log (spec
sections 4.3, 4.4, 5). -/
def processEvent (cfg : EventConfig)
    (prepareResult : Except String (List (String × Value)))
    (http : DispatchTask → Except String Unit) :
    ReceiverResult × List String :=
  let r := handleEvent cfg prepareResult
  (r, match r.enqueued with
      | some t => runTask http t
      | Option.none => [])

/-- A sequence of independent flatten calls, in call order. -/
def runCalls (inputs : List (List (String × EventValue))) :
    List (List (String × Value)) :=
  inputs.map flattenFields

/-- The enrollment event payload of `EventTestData.event_data` in
`src/tests/test_receivers.py` (lines 42-61): a `CourseEnrollmentData` with
nested `UserData`/`UserPersonalData` and `CourseData`, including the
defaulted `end=None` and `created_by=None` fields. -/
def enrollmentEvent : List (String × EventValue) :=
  [("user", .record
      [("id", .prim (.int 42)),
       ("is_active", .prim (.bool true)),
       ("pii", .record
          [("username", .prim (.str "test")),
           ("email", .prim (.str "test@example.com")),
           ("name", .prim (.str "Test Example"))])]),
   ("course", .record
      [("course_key", .courseKey "course-v1:edX+DemoX+Demo_Course"),
       ("display_name", .prim (.str "Demonstration Course")),
       ("start", .datetime 2022 9 30 0 0 0),
       ("end", .prim .null)]),
   ("mode", .prim (.str "audit")),
   ("is_active", .prim (.bool true)),
   ("creation_date", .datetime 2022 9 30 12 34 56),
   ("created_by", .prim .null)]

/-- The expected flattened record `EventTestData.parsed_data` of
`src/tests/test_receivers.py` (lines 63-77): thirteen keys. -/
def parsedData : List (String × Value) :=
  [("user_id", .int 42),
   ("user_is_active", .bool true),
   ("user_pii_username", .str "test"),
   ("user_pii_email", .str "test@example.com"),
   ("user_pii_name", .str "Test Example"),
   ("course_course_key", .str "course-v1:edX+DemoX+Demo_Course"),
   ("course_display_name", .str "Demonstration Course"),
   ("course_start", .str "2022-09-30 00:00:00"),
   ("course_end", .null),
   ("mode", .str "audit"),
   ("is_active", .bool true),
   ("creation_date", .str "2022-09-30 12:34:56"),
   ("created_by", .null)]

/-- The nine-binding mapping that the spec's section 8 example enumerates
verbatim (`user_id` through `created_by`, without `user_pii_name`,
`course_display_name`, `mode`, `is_active`). -/
def spec9Mapping : List (String × Value) :=
  [("user_id", .int 42),
   ("user_is_active", .bool true),
   ("user_pii_username", .str "test"),
   ("user_pii_email", .str "test@example.com"),
   ("course_course_key", .str "course-v1:edX+DemoX+Demo_Course"),
   ("course_start", .str "2022-09-30 00:00:00"),
   ("course_end", .null),
   ("creation_date", .str "2022-09-30 12:34:56"),
   ("created_by", .null)]

/-- Membership characterization of the projection loop: an entry `(out, v)`
appears in `projectPairs F M` exactly when some pair `(src, out)` of `M` has
`src` present in `F` with value `v`. -/
theorem mem_projectPairs (F : List (String × Value)) (M : List (String × String))
    (out : String) (v : Value) :
    (out, v) ∈ projectPairs F M ↔
      ∃ src, (src, out) ∈ M ∧ lookupV F src = some v := by
  induction M with
  | nil => simp [projectPairs]
  | cons p rest ih =>
      obtain ⟨src, o⟩ := p
      simp only [projectPairs]
      cases h : lookupV F src with
      | none =>
          rw [ih]
          constructor
          · rintro ⟨s, hm, hl⟩
            exact ⟨s, List.mem_cons_of_mem _ hm, hl⟩
          · rintro ⟨s, hm, hl⟩
            rcases List.mem_cons.mp hm with hc | hm2
            · rw [Prod.mk.injEq] at hc
              obtain ⟨rfl, rfl⟩ := hc
              rw [h] at hl
              exact absurd hl (by simp)
            · exact ⟨s, hm2, hl⟩
      | some w =>
          constructor
          · intro hmem
            rcases List.mem_cons.mp hmem with hc | hm2
            · rw [Prod.mk.injEq] at hc
              obtain ⟨rfl, rfl⟩ := hc
              exact ⟨src, List.mem_cons_self _ _, h⟩
            · obtain ⟨s, hm, hl⟩ := ih.mp hm2
              exact ⟨s, List.mem_cons_of_mem _ hm, hl⟩
          · rintro ⟨s, hm, hl⟩
            rcases List.mem_cons.mp hm with hc | hm2
            · rw [Prod.mk.injEq] at hc
              obtain ⟨rfl, rfl⟩ := hc
              rw [h] at hl
              obtain rfl : w = v := by injection hl
              exact List.mem_cons_self _ _
            · exact List.mem_cons_of_mem _ (ih.mpr ⟨s, hm2, hl⟩)

/-- The projection loop keeps exactly the pairs whose source key is present
in the flattened record. -/
theorem projectPairs_length (F : List (String × Value)) (M : List (String × String)) :
    (projectPairs F M).length =
      (M.filter (fun p => (lookupV F p.1).isSome)).length := by
  induction M with
  | nil => rfl
  | cons p rest ih =>
      obtain ⟨src, o⟩ := p
      simp only [projectPairs]
      cases h : lookupV F src with
      | none => simpa [List.filter, h] using ih
      | some w => simpa [List.filter, h] using ih

/-- C1 counterexample: the claim says flattening the enrollment example
produces exactly the nine bindings that spec section 8 lists, but the
flattened record has 13 keys — for instance it maps `mode` to `"audit"`,
a key absent from the claimed mapping. -/
theorem flatten_example_not_exactly_spec9 :
    lookupV (flattenFields enrollmentEvent) "mode" = some (Value.str "audit") ∧
    lookupV spec9Mapping "mode" = Option.none ∧
    (flattenFields enrollmentEvent).length = 13 ∧
    spec9Mapping.length = 9 :=
  ⟨rfl, rfl, rfl, rfl⟩

/-- C1 (amended): flattening the enrollment example produces a mapping that
contains every binding the spec's section 8 example lists — `user_id=42`,
`user_is_active=True`, `user_pii_username="test"`,
`user_pii_email="test@example.com"`,
`course_course_key="course-v1:edX+DemoX+Demo_Course"`,
`course_start="2022-09-30 00:00:00"`, `course_end=None`,
`creation_date="2022-09-30 12:34:56"`, `created_by=None` — though not only
those bindings. -/
theorem flatten_example_contains_spec9 :
    lookupV (flattenFields enrollmentEvent) "user_id" = some (Value.int 42) ∧
    lookupV (flattenFields enrollmentEvent) "user_is_active" = some (Value.bool true) ∧
    lookupV (flattenFields enrollmentEvent) "user_pii_username" = some (Value.str "test") ∧
    lookupV (flattenFields enrollmentEvent) "user_pii_email" =
      some (Value.str "test@example.com") ∧
    lookupV (flattenFields enrollmentEvent) "course_course_key" =
      some (Value.str "course-v1:edX+DemoX+Demo_Course") ∧
    lookupV (flattenFields enrollmentEvent) "course_start" =
      some (Value.str "2022-09-30 00:00:00") ∧
    lookupV (flattenFields enrollmentEvent) "course_end" = some Value.null ∧
    lookupV (flattenFields enrollmentEvent) "creation_date" =
      some (Value.str "2022-09-30 12:34:56") ∧
    lookupV (flattenFields enrollmentEvent) "created_by" = some Value.null :=
  ⟨rfl, rfl, rfl, rfl, rfl, rfl, rfl, rfl, rfl⟩

/-- C2: for every flattened mapping `F` and non-empty field mapping `M`,
`project F (some M)` holds `output_key -> F[source_key]` for exactly the
pairs of `M` whose source key is a key of `F` (membership characterization,
plus the count of surviving pairs); absent source keys are skipped and never
cause an error — `project` is a total function. -/
theorem project_nonempty_spec (F : List (String × Value))
    (M : List (String × String)) (hM : M ≠ []) :
    (∀ out v, ((out, v) ∈ project F (some M) ↔
        ∃ src, (src, out) ∈ M ∧ lookupV F src = some v)) ∧
    (project F (some M)).length =
      (M.filter (fun p => (lookupV F p.1).isSome)).length :=
  ⟨fun out v => mem_projectPairs F M out v, projectPairs_length F M⟩

/-- Witness for C2 at a concrete input: mapping `{"a": "b", "c": "d"}` over
the flattened record `{"a": 1}` keeps exactly one pair. -/
theorem project_nonempty_spec_witness :
    ([("a", "b"), ("c", "d")] : List (String × String)) ≠ [] ∧
    (project [("a", Value.int 1)] (some [("a", "b"), ("c", "d")])).length =
      ([("a", "b"), ("c", "d")].filter
        (fun p => (lookupV [("a", Value.int 1)] p.1).isSome)).length :=
  ⟨by decide,
   (project_nonempty_spec [("a", Value.int 1)] [("a", "b"), ("c", "d")]
      (by decide)).2⟩

/-- C3: projecting a flattened record through an unset (`None`) field mapping
is the identity: `project (flatten x) None = flatten x` for every record. -/
theorem project_none_roundtrip (x : List (String × EventValue)) :
    project (flattenFields x) Option.none = flattenFields x :=
  rfl

/-- C4: projecting any flattened mapping through an empty field mapping
yields the empty mapping, regardless of the input's size. -/
theorem project_empty_mapping (F : List (String × Value)) :
    project F (some []) = [] :=
  rfl

/-- C5: with a URL configured and neither field mapping nor headers
configured, handling the event enqueues exactly one POST whose body is the
full flattened record, whose headers are the empty mapping (the default),
and whose timeout is 30 seconds, and logs nothing. -/
theorem send_full_record_on_url (u : String) (fields : List (String × EventValue)) :
    send_enrollment_data ⟨some u, Option.none, Option.none⟩ fields =
      ⟨some ⟨u, flattenFields fields, [], 30⟩, []⟩ :=
  rfl

/-- C6: with no URL configured for the event kind, the receiver performs no
dispatch — nothing is enqueued, nothing is logged, and the background task
system runs nothing — whatever the headers, field mapping, payload, prepare
outcome and HTTP layer are. -/
theorem no_url_no_dispatch (hdrs fm : Option (List (String × String)))
    (fields : List (String × EventValue))
    (pr : Except String (List (String × Value)))
    (http : DispatchTask → Except String Unit) :
    send_enrollment_data ⟨Option.none, hdrs, fm⟩ fields =
      ⟨Option.none, []⟩ ∧
    (processEvent ⟨Option.none, hdrs, fm⟩ pr http).2 = [] :=
  ⟨rfl, rfl⟩

/-- C7: any exception raised while preparing the data (configuration lookup,
flattening or projection) is caught by the receiver and logged; the receiver
still returns normally (its return type carries no error) and dispatches
nothing. -/
theorem receiver_catches_and_logs (u : String)
    (hdrs fm : Option (List (String × String))) (e : String) :
    handleEvent ⟨some u, hdrs, fm⟩ (.error e) = ⟨Option.none, [e]⟩ :=
  rfl

/-- C8: when the enqueued dispatch task fails, the failure surfaces only in
the background task system's own failure log, and the receiver's result —
what its caller observes — is the same whatever the HTTP layer does. -/
theorem dispatch_failure_isolated (cfg : EventConfig)
    (pr : Except String (List (String × Value)))
    (t : DispatchTask) (e : String)
    (http http2 : DispatchTask → Except String Unit)
    (ht : (handleEvent cfg pr).enqueued = some t)
    (he : http t = .error e) :
    (processEvent cfg pr http).2 = [e] ∧
    (processEvent cfg pr http2).1 = (processEvent cfg pr http).1 := by
  constructor
  · show (match (handleEvent cfg pr).enqueued with
          | some t => runTask http t
          | Option.none => []) = [e]
    rw [ht]
    simp [runTask, he]
  · rfl

/-- Witness for C8 at a concrete input: URL `invalid_url`, empty payload, an
HTTP layer that always fails with `bad url`. -/
theorem dispatch_failure_isolated_witness :
    (handleEvent ⟨some "invalid_url", Option.none, Option.none⟩
        (Except.ok [])).enqueued = some ⟨"invalid_url", [], [], 30⟩ ∧
    (fun _ : DispatchTask => (Except.error "bad url" : Except String Unit))
        ⟨"invalid_url", [], [], 30⟩ = Except.error "bad url" ∧
    (processEvent ⟨some "invalid_url", Option.none, Option.none⟩ (Except.ok [])
        (fun _ => Except.error "bad url")).2 = ["bad url"] ∧
    (processEvent ⟨some "invalid_url", Option.none, Option.none⟩ (Except.ok [])
        (fun _ => Except.ok ())).1 =
      (processEvent ⟨some "invalid_url", Option.none, Option.none⟩ (Except.ok [])
        (fun _ => Except.error "bad url")).1 :=
  ⟨rfl, rfl,
   (dispatch_failure_isolated ⟨some "invalid_url", Option.none, Option.none⟩
      (Except.ok []) ⟨"invalid_url", [], [], 30⟩ "bad url"
      (fun _ => Except.error "bad url") (fun _ => Except.ok ()) rfl rfl).1,
   (dispatch_failure_isolated ⟨some "invalid_url", Option.none, Option.none⟩
      (Except.ok []) ⟨"invalid_url", [], [], 30⟩ "bad url"
      (fun _ => Except.error "bad url") (fun _ => Except.ok ()) rfl rfl).2⟩

/-- C9: flattening is deterministic and independent of call order: in any
sequence of flatten calls, the result of a call is `flattenFields` of its
own input, whatever calls precede or follow it, so two calls on the same
input — in the same run or in different runs — give identical mappings. -/
theorem flatten_deterministic
    (pre post pre2 post2 : List (List (String × EventValue)))
    (x : List (String × EventValue)) :
    (runCalls (pre ++ x :: post)).get? pre.length = some (flattenFields x) ∧
    (runCalls (pre ++ x :: post)).get? pre.length =
      (runCalls (pre2 ++ x :: post2)).get? pre2.length := by
  have key : ∀ (p q : List (List (String × EventValue))),
      (runCalls (p ++ x :: q)).get? p.length = some (flattenFields x) := by
    intro p q
    induction p with
    | nil => rfl
    | cons y ys ih => simpa [runCalls] using ih
  exact ⟨key pre post, by rw [key pre post, key pre2 post2]⟩

/-- C10: flattening the enrollment example yields the full thirteen-key
mapping of the test's `parsed_data` — every primitive field of the payload
appears, including `user_pii_name`, `course_display_name`, `mode` and
`is_active`, beyond the subset spec section 8 enumerates. -/
theorem flatten_example_full :
    flattenFields enrollmentEvent = parsedData ∧
    lookupV (flattenFields enrollmentEvent) "user_pii_name" =
      some (Value.str "Test Example") ∧
    lookupV (flattenFields enrollmentEvent) "course_display_name" =
      some (Value.str "Demonstration Course") ∧
    lookupV (flattenFields enrollmentEvent) "mode" = some (Value.str "audit") ∧
    lookupV (flattenFields enrollmentEvent) "is_active" = some (Value.bool true) :=
  ⟨rfl, rfl, rfl, rfl, rfl⟩
